import Mathlib

/-!
Verification development for the `backendgnbweb` payment backend.

The repository is a collection of revisions of one Express/Supabase server
(`index.js` and the unnamed revision files).  Each webhook handler is embedded
here as a pure state-transition function over an explicit relational store
(`DB`), translated directly from the corresponding revision:

* `webhookPart3`   — the snapshot-consuming reconciliation handler
  (revision `part_003`): ledger idempotency gate, order existence gate,
  snapshot materialization, snapshot deletion.
* `webhookPart5v2` — the hardened reconciliation handler (second revision in
  `part_005`, lines 399-516): payments upsert with duplicate-ignore, defensive
  item reconciliation when the order exists with zero items, materialization.
* `webhookRev1`    — the `order_payments` + conditional-update handler
  (first revision in `part_005` / the second revision concatenated into
  `index.js`): ledger insert whose errors are only logged, then a
  `paid_at IS NULL`-guarded status update.
* `webhookPart0`   — the handler of revision `part_000`: minimal-row insert on
  missing order, unconditional status overwrite on non-success events.
* `webhookPart8`   — the handler of revision `part_008`: cart data is stored
  inline on the order row (`raw_cart_data`); missing cart data is answered
  with HTTP 200 and a permanent `Failed: Missing Cart Data` marking.
* `webhookIndex1`  — the first revision concatenated into `index.js`
  (signature gate responding 400 on mismatch, then a
  `status = 'Pending Payment'`-guarded update).

HMAC-SHA256 is treated as an abstract keyed digest: the verifiers are
parameterized by a function `hmacB64 : String → String → String`
(secret → message → Base64 digest).  JavaScript `Number` amounts are embedded
as `Int` (the handlers only copy and subtract them; no claim depends on
floating-point behaviour).  Timestamps (`Date.now()`, `new Date()`) are `Nat`
parameters.  Audit-only columns (`created_at`, raw payload copies) are omitted
from the rows; no claim mentions them.
-/

namespace Gnb

/-- An HTTP response: status code and body text (JSON bodies are abbreviated
to a stable token). -/
structure Resp where
  status : Nat
  body : String
deriving Repr, DecidableEq

/-- One cart line of a pending snapshot (`ci.item.id`, `ci.qty`,
`ci.item.price` in the source). -/
structure CartEntry where
  itemId : String
  qty : Nat
  price : Int
deriving Repr, DecidableEq

/-- A row of the `orders` table.  Optional columns are `Option`; revisions
that never write a column leave it `none`. -/
structure OrderRow where
  id : String
  userId : Option String
  userEmail : Option String
  status : String
  paymentId : Option String
  paidAt : Option Nat
  totalAmount : Option Int
  rawCartData : Option (List CartEntry)
deriving Repr, DecidableEq

/-- A row of the `order_items` table. -/
structure ItemRow where
  orderId : String
  itemId : String
  qty : Nat
  price : Int
deriving Repr, DecidableEq

/-- A row of the payment ledger (`payments` / `order_payments`), keyed by the
gateway payment id `cf_payment_id`. -/
structure PaymentRow where
  cfPaymentId : String
  orderId : String
  amount : Int
  status : String
deriving Repr, DecidableEq

/-- A row of the `pending_orders` snapshot table, keyed by the order id. -/
structure PendingRow where
  id : String
  userId : String
  userEmail : String
  amount : Int
  cart : List CartEntry
deriving Repr, DecidableEq

/-- The durable store: the four tables used by the webhook handlers. -/
structure DB where
  orders : List OrderRow
  orderItems : List ItemRow
  payments : List PaymentRow
  pendingOrders : List PendingRow
deriving Repr, DecidableEq

/-- `SELECT ... FROM orders WHERE id = oid` with `single`/`maybeSingle`. -/
def findOrder (db : DB) (oid : String) : Option OrderRow :=
  db.orders.find? (fun r => r.id == oid)

/-- `SELECT ... FROM payments WHERE cf_payment_id = pid` with `maybeSingle`. -/
def findPayment (db : DB) (pid : String) : Option PaymentRow :=
  db.payments.find? (fun r => r.cfPaymentId == pid)

/-- `SELECT * FROM pending_orders WHERE id = oid` with `maybeSingle`. -/
def findPending (db : DB) (oid : String) : Option PendingRow :=
  db.pendingOrders.find? (fun r => r.id == oid)

/-- All `order_items` rows belonging to one order. -/
def itemsFor (db : DB) (oid : String) : List ItemRow :=
  db.orderItems.filter (fun r => r.orderId == oid)

/-- All `orders` rows with a given id (the primary key makes more than one a
violation; claims about "exactly one row" are stated through this list). -/
def ordersFor (db : DB) (oid : String) : List OrderRow :=
  db.orders.filter (fun r => r.id == oid)

/-- `INSERT INTO orders` under the primary-key constraint: `none` models the
unique-violation error. -/
def insertOrderUnique (db : DB) (row : OrderRow) : Option DB :=
  if (findOrder db row.id).isSome then none
  else some { db with orders := db.orders ++ [row] }

/-- `INSERT INTO orders` on a path that performs no conflict handling. -/
def insertOrderRow (db : DB) (row : OrderRow) : DB :=
  { db with orders := db.orders ++ [row] }

/-- `INSERT INTO order_items` (bulk insert of materialized rows). -/
def insertItemRows (db : DB) (rows : List ItemRow) : DB :=
  { db with orderItems := db.orderItems ++ rows }

/-- `INSERT INTO payments` under the unique `cf_payment_id` constraint:
`none` models the duplicate-key error. -/
def insertPaymentUnique (db : DB) (row : PaymentRow) : Option DB :=
  if (findPayment db row.cfPaymentId).isSome then none
  else some { db with payments := db.payments ++ [row] }

/-- `upsert(..., ignoreDuplicates: true)` keyed by `cf_payment_id`: a
duplicate is silently skipped. -/
def upsertPaymentIgnoreDup (db : DB) (row : PaymentRow) : DB :=
  if (findPayment db row.cfPaymentId).isSome then db
  else { db with payments := db.payments ++ [row] }

/-- `UPDATE orders SET ... WHERE p` — applies `f` to every row satisfying
`p`, as the SQL update does. -/
def updateOrdersWhere (db : DB) (p : OrderRow → Bool) (f : OrderRow → OrderRow) : DB :=
  { db with orders := db.orders.map (fun r => if p r then f r else r) }

/-- `DELETE FROM pending_orders WHERE id = oid`. -/
def deletePending (db : DB) (oid : String) : DB :=
  { db with pendingOrders := db.pendingOrders.filter (fun r => !(r.id == oid)) }

end Gnb

namespace Gnb

/-! ### Order-id generation (`'order_' + Date.now()`)

`makeOrderId` embeds the id generator shared by every create-order revision
(`makeOrderId` in the firebase revision of `part_005`, and the inline
`const cashfreeOrderId = 'order_' + Date.now()` elsewhere).  `Date.now()` is
the millisecond clock value observed by the invocation; `createOrderIdAt`
additionally records the invocation index to express that two *different*
invocations may observe the *same* clock value. -/

/-- The id generator: `'order_' + Date.now()` with `now` the observed
millisecond timestamp. -/
def makeOrderId (now : Nat) : String :=
  "order_" ++ toString now

/-- The order id produced by the `invocation`-th create-order call when it
observes clock value `now`.  The source derives the id from the clock alone,
so the invocation index does not influence the result. -/
def createOrderIdAt (invocation : Nat) (now : Nat) : String :=
  makeOrderId now

/-- Decimal value of a digit character (inverse of `Nat.digitChar` on
digits). -/
def charVal (c : Char) : Nat := c.toNat - 48

/-- Decode a most-significant-first decimal digit string, continuing from the
accumulated value `a`. -/
def decodeFrom (a : Nat) (l : List Char) : Nat :=
  l.foldl (fun x c => x * 10 + charVal c) a

/-- Specification of what `Nat.toDigitsCore` pushes onto an accumulator that
already decodes to `a`. -/
def pushDigits (a : Nat) (n : Nat) : Nat :=
  if n < 10 then a * 10 + n
  else pushDigits a (n / 10) * 10 + n % 10
decreasing_by exact Nat.div_lt_self (by omega) (by omega)

/-! ### Normalized webhook events

The handlers receive the already-parsed gateway payload.  The normalizers
extract `orderId`, `paymentId` and a status token (upper-cased where the
source upper-cases); a field missing from the payload is the empty string /
`none`, matching the JavaScript falsiness checks. -/

/-- The tuple the `part_003` / `part_005` handlers read out of the event:
`order.order_id`, `String(payment.cf_payment_id || '')`,
`payment.payment_status`, and the numeric amount. -/
structure CashfreeEvent where
  orderId : String
  paymentId : String
  payStatus : String
  amount : Int
deriving Repr, DecidableEq

/-- Per-item flat discount (`FLAT_ITEM_DISCOUNT = 5.0` in `part_003` and the
second revision of `part_005`). -/
def flatItemDiscount : Int := 5

/-- Item materialization from a snapshot cart:
`price: Math.max(0, Number(ci.item.price) - FLAT_ITEM_DISCOUNT)`. -/
def materializeItems (oid : String) (cart : List CartEntry) : List ItemRow :=
  cart.map (fun ci => { orderId := oid, itemId := ci.itemId, qty := ci.qty,
                        price := max 0 (ci.price - flatItemDiscount) })

/-- The `orders` header row written by the snapshot materialization step
(`status: 'Preparing'`; `part_003`/`part_005` write no payment id there). -/
def preparingHeader (pending : PendingRow) : OrderRow :=
  { id := pending.id, userId := some pending.userId,
    userEmail := some pending.userEmail, status := "Preparing",
    paymentId := none, paidAt := none, totalAmount := none, rawCartData := none }

/-! ### `part_003`: POST /api/cashfree/webhook (after signature check and parse) -/

/-- The reconciliation handler of revision `part_003`, lines 147-236: process
only SUCCESS; duplicate-payment gate; insert payment ledger row; order
existence gate; fetch pending snapshot (500 when absent); insert order header
and items; delete the snapshot. -/
def webhookPart3 (db : DB) (e : CashfreeEvent) : DB × Resp :=
  if e.payStatus != "SUCCESS" then (db, ⟨200, "Ignored non-success"⟩)
  else
    match findPayment db e.paymentId with
    | some _ => (db, ⟨200, "Duplicate payment ignored"⟩)
    | none =>
      let payRow : PaymentRow :=
        { cfPaymentId := e.paymentId, orderId := e.orderId,
          amount := e.amount, status := "SUCCESS" }
      match insertPaymentUnique db payRow with
      | none => (db, ⟨500, "Payments insert failed"⟩)
      | some db1 =>
        match findOrder db1 e.orderId with
        | some _ => (db1, ⟨200, "Order already exists"⟩)
        | none =>
          match findPending db1 e.orderId with
          | none => (db1, ⟨500, "No pending snapshot"⟩)
          | some pending =>
            match insertOrderUnique db1 (preparingHeader pending) with
            | none => (db1, ⟨500, "Order insert failed"⟩)
            | some db2 =>
              let db3 := insertItemRows db2 (materializeItems pending.id pending.cart)
              let db4 := deletePending db3 pending.id
              (db4, ⟨200, "OK"⟩)

/-! ### `part_005`, second revision (lines 399-516): hardened webhook -/

/-- The hardened reconciliation handler: payments upsert with
`ignoreDuplicates`, defensive item reconciliation when the order header exists
with zero items, otherwise the fresh materialization path. -/
def webhookPart5v2 (db : DB) (e : CashfreeEvent) : DB × Resp :=
  if e.payStatus != "SUCCESS" then (db, ⟨200, "Ignored non-success"⟩)
  else
    let payRow : PaymentRow :=
      { cfPaymentId := e.paymentId, orderId := e.orderId,
        amount := e.amount, status := "SUCCESS" }
    let db1 := upsertPaymentIgnoreDup db payRow
    match findOrder db1 e.orderId with
    | some _ =>
      if (itemsFor db1 e.orderId).length == 0 then
        match findPending db1 e.orderId with
        | none => (db1, ⟨500, "No pending for reconciliation"⟩)
        | some pending =>
          let db2 := insertItemRows db1 (materializeItems e.orderId pending.cart)
          let db3 := deletePending db2 e.orderId
          (db3, ⟨200, "Order already exists"⟩)
      else (db1, ⟨200, "Order already exists"⟩)
    | none =>
      match findPending db1 e.orderId with
      | none => (db1, ⟨500, "No pending snapshot"⟩)
      | some pending =>
        match insertOrderUnique db1 (preparingHeader pending) with
        | none => (db1, ⟨500, "Order insert failed"⟩)
        | some db2 =>
          let db3 := insertItemRows db2 (materializeItems pending.id pending.cart)
          let db4 := deletePending db3 pending.id
          (db4, ⟨200, "OK"⟩)

/-- Iterated delivery of one identical event (`n` sequential webhook calls to
the `part_005` hardened handler). -/
def deliverN (e : CashfreeEvent) : Nat → DB → DB
  | 0, db => db
  | n + 1, db => deliverN e n (webhookPart5v2 db e).1

/-! ### First revision of `part_005` (= second revision in `index.js`):
`order_payments` insert with logged-only errors, then guarded updates -/

/-- Status tokens treated as payment success by this revision. -/
def successTokens : List String := ["SUCCESS", "PAID", "AUTHORIZED", "CAPTURED"]

/-- Status tokens that trigger the failure marking. -/
def failureTokens : List String := ["FAILED", "CANCELLED"]

/-- The handler of the first revision in `part_005` (lines 200-251), after
signature check and parse.  `ledgerInsertFails` injects the transient
non-duplicate insert failure of `order_payments` (the source only logs it and
continues); `now` is the `new Date()` timestamp used for `paid_at`. -/
def webhookRev1 (ledgerInsertFails : Bool) (now : Nat) (db : DB) (e : CashfreeEvent) :
    DB × Resp :=
  if e.orderId == "" || e.paymentId == "" then (db, ⟨200, "ok"⟩)
  else
    let payRow : PaymentRow :=
      { cfPaymentId := e.paymentId, orderId := e.orderId, amount := e.amount,
        status := if e.payStatus == "" then "UNKNOWN" else e.payStatus }
    -- insert into order_payments; a duplicate-key error is skipped, any other
    -- error is only logged — in every error case the table is unchanged and
    -- processing continues
    let db1 := if ledgerInsertFails then db else upsertPaymentIgnoreDup db payRow
    if successTokens.contains e.payStatus then
      (updateOrdersWhere db1
        (fun r => r.id == e.orderId && r.paidAt == none)
        (fun r =>
          { r with
            status := "Preparing"
            paymentId := some e.paymentId
            paidAt := some now }),
       ⟨200, "ok"⟩)
    else if failureTokens.contains e.payStatus then
      (updateOrdersWhere db1
        (fun r => r.id == e.orderId && r.paidAt == none)
        (fun r => { r with status := "Payment Failed" }),
       ⟨200, "ok"⟩)
    else (db1, ⟨200, "ok"⟩)

/-! ### `part_000`: webhook with minimal-row insert and unconditional
non-success overwrite -/

/-- The event tuple extracted by `part_000`: `order_id`, the upper-cased raw
status `s`, and the optional `cf_payment_id`. -/
structure Part0Event where
  orderId : String
  status : String
  cfPaymentId : Option String
deriving Repr, DecidableEq

/-- Success tokens of `part_000` (`successStatuses`). -/
def part0SuccessStatuses : List String := ["PAID", "SUCCESS", "CHARGED", "CAPTURED"]

/-- The post-verification processing of revision `part_000`, lines 130-169:
missing order row ⇒ insert a minimal row (no items); success status ⇒ update
to Preparing unless already Preparing/Success; any other status ⇒
unconditionally overwrite the stored status with the event's status. -/
def webhookPart0 (db : DB) (e : Part0Event) : DB × Resp :=
  if e.orderId == "" then (db, ⟨200, "ok"⟩)
  else
    match findOrder db e.orderId with
    | none =>
      let row : OrderRow :=
        { id := e.orderId, userId := none, userEmail := none,
          status := if part0SuccessStatuses.contains e.status then "Preparing" else e.status,
          paymentId := none, paidAt := none, totalAmount := none, rawCartData := none }
      (insertOrderRow db row, ⟨200, "ok"⟩)
    | some dbOrder =>
      if part0SuccessStatuses.contains e.status then
        if dbOrder.status != "Preparing" && dbOrder.status != "Success" then
          (updateOrdersWhere db (fun r => r.id == e.orderId)
            (fun r => { r with status := "Preparing", paymentId := e.cfPaymentId }),
           ⟨200, "ok"⟩)
        else (db, ⟨200, "ok"⟩)
      else
        (updateOrdersWhere db (fun r => r.id == e.orderId)
          (fun r => { r with status := e.status }),
         ⟨200, "ok"⟩)

/-! ### `part_008`: snapshot stored inline as `orders.raw_cart_data` -/

/-- The event tuple destructured by `part_008`:
`const (order_id, order_status, cf_payment_id, entity) = event.data?.order || event`. -/
structure Part8Event where
  entity : String
  orderId : String
  orderStatus : String
  cfPaymentId : Option String
deriving Repr, DecidableEq

/-- The post-verification processing of revision `part_008`, lines 161-251.
Cart entries are embedded as well-formed `CartEntry` records, so the source's
`filter(ci => ci && ci.item && ci.item.id)` keeps every entry; the
`itemsPayload.length === 0` branch therefore coincides with the empty-cart
branch. -/
def webhookPart8 (db : DB) (e : Part8Event) : DB × Resp :=
  if e.entity != "order" || e.orderId == "" then (db, ⟨200, "Invalid event structure"⟩)
  else
    match findOrder db e.orderId with
    | none => (db, ⟨200, "Order not found in DB"⟩)
    | some preOrder =>
      if e.orderStatus == "PAID" || e.orderStatus == "SUCCESS" then
        if preOrder.status != "Pending Payment" then
          (db, ⟨200, "Order already processed"⟩)
        else
          match preOrder.rawCartData with
          | none =>
            (updateOrdersWhere db (fun r => r.id == e.orderId)
              (fun r => { r with status := "Failed: Missing Cart Data" }),
             ⟨200, "Missing cart data"⟩)
          | some cart =>
            if cart.isEmpty then
              (updateOrdersWhere db (fun r => r.id == e.orderId)
                (fun r => { r with status := "Failed: Missing Cart Data" }),
               ⟨200, "Missing cart data"⟩)
            else
              let db1 := updateOrdersWhere db (fun r => r.id == e.orderId)
                (fun r =>
                  { r with
                    status := "Preparing"
                    paymentId := some (e.cfPaymentId.getD "N/A") })
              let db2 := insertItemRows db1
                (cart.map (fun ci =>
                  { orderId := e.orderId, itemId := ci.itemId,
                    qty := ci.qty, price := ci.price }))
              (db2, ⟨200, "Webhook processed"⟩)
      else
        (updateOrdersWhere db (fun r => r.id == e.orderId)
          (fun r => { r with status := e.orderStatus }),
         ⟨200, "Webhook processed"⟩)

/-! ### Signature verifiers

HMAC-SHA256-with-Base64 is abstracted as `hmacB64 : String → String → String`
(secret → message → encoded digest); the hex variant of `part_009` is a
separate abstract digest.  `crypto.timingSafeEqual(Buffer(a), Buffer(b))`
wrapped in try/catch (length mismatch throws, caught to a plain comparison or
`false`) has, in every revision, the value of plain string equality — only
its running time differs, which this embedding does not model. -/

/-- `verifyCashfreeSignature` of the second revision of `index.js` (lines
306-329): secret from config, reject blank inputs, digest over
`timestampHeader + rawBody`, Base64, compare. -/
def verifyCashfreeSignatureIndex (hmacB64 : String → String → String)
    (rawBody signatureHeader timestampHeader secret : String) : Bool :=
  if secret == "" || signatureHeader == "" || timestampHeader == "" then false
  else hmacB64 secret (timestampHeader ++ rawBody) == signatureHeader

/-- `verifyCashfreeSignature` of the first revision in `part_005` (lines
34-43): the digest is computed over the raw body ONLY — the timestamp header
is not part of the signed string. -/
def verifyCashfreeSignatureP5 (hmacB64 : String → String → String)
    (rawBody signatureHeader secret : String) : Bool :=
  if secret == "" || signatureHeader == "" then false
  else hmacB64 secret rawBody == signatureHeader

/-- `verifyCashfreeWebhook` of revision `part_000` (lines 41-57): digest over
`ts + raw`, Base64, plain `===` comparison; false on any missing input. -/
def verifyCashfreeWebhookPart0 (hmacB64 : String → String → String)
    (ts sig raw secret : String) : Bool :=
  if ts == "" || sig == "" || raw == "" || secret == "" then false
  else hmacB64 secret (ts ++ raw) == sig

/-- A concrete stand-in keyed digest used only to instantiate
counterexamples (the claims quantify over the digest function). -/
def toyDigest (secret msg : String) : String :=
  secret ++ "|" ++ msg

/-! ### First revision concatenated into `index.js`: full webhook entry -/

/-- The event fields read by that revision: `data.type` and
`data.data.order.{order_status, order_id}`. -/
structure Index1Event where
  eventType : String
  orderStatus : String
  orderId : String
deriving Repr, DecidableEq

/-- The complete webhook handler of the first revision of `index.js` (lines
127-169).  `event` stands for `JSON.parse(payload.toString())` of `body`;
headers-missing and signature-mismatch paths both answer HTTP 400 and leave
the store untouched. -/
def webhookIndex1 (hmacB64 : String → String → String)
    (sig ts secret body : String) (event : Index1Event) (db : DB) : DB × Resp :=
  if sig == "" || ts == "" || secret == "" then (db, ⟨400, "Webhook headers missing"⟩)
  else if hmacB64 secret (ts ++ body) != sig then (db, ⟨400, "Invalid webhook signature"⟩)
  else if event.eventType == "PAYMENT_SUCCESS_WEBHOOK" && event.orderStatus == "PAID" then
    (updateOrdersWhere db
      (fun r => r.id == event.orderId && r.status == "Pending Payment")
      (fun r => { r with status := "Preparing" }),
     ⟨200, "Webhook received successfully"⟩)
  else (db, ⟨200, "Webhook received successfully"⟩)

/-- The complete webhook handler of revision `part_000` (lines 122-175):
verification failure is acknowledged with HTTP 200 (`res.status(200).json(
ok:false )`) and processing stops; otherwise `webhookPart0` runs. -/
def webhookPart0Full (hmacB64 : String → String → String)
    (ts sig raw secret : String) (event : Part0Event) (db : DB) : DB × Resp :=
  if verifyCashfreeWebhookPart0 hmacB64 ts sig raw secret then
    webhookPart0 db event
  else (db, ⟨200, "ok:false"⟩)

/-- The store after a successful `part_003` / `part_005` materialization of
snapshot `snap` triggered by event `e`: ledger row, `Preparing` header and
derived items inserted, snapshot deleted. -/
def finalizedState (db : DB) (e : CashfreeEvent) (snap : PendingRow) : DB :=
  { orders := db.orders ++ [preparingHeader snap],
    orderItems := db.orderItems ++ materializeItems snap.id snap.cart,
    payments := db.payments ++ [⟨e.paymentId, e.orderId, e.amount, "SUCCESS"⟩],
    pendingOrders := db.pendingOrders.filter (fun s => !(s.id == snap.id)) }

/-- Concrete pending order row used by the C2 witness. -/
def c2Row : OrderRow := ⟨"order_3", none, none, "Payment Active", none, none, none, none⟩

/-- Concrete store used by the C2 witness. -/
def c2DB : DB := ⟨[c2Row], [], [], []⟩

/-- Concrete FAILED event used by the C2 witness. -/
def c2Ev : CashfreeEvent := ⟨"order_3", "pay_3", "FAILED", 50⟩

/-- Concrete snapshot used by the C1 witness. -/
def c1Snap : PendingRow := ⟨"order_1", "u", "e", 130, [⟨"A", 2, 50⟩, ⟨"B", 1, 30⟩]⟩

/-- Concrete store used by the C1 witness. -/
def c1DB : DB := ⟨[], [], [], [c1Snap]⟩

/-- Concrete SUCCESS event used by the C1 witness. -/
def c1Ev : CashfreeEvent := ⟨"order_1", "pay_1", "SUCCESS", 130⟩

/-! ## Injectivity of the decimal representation (for C9) -/

theorem charVal_digitChar : ∀ m, m < 10 → charVal (Nat.digitChar m) = m := by decide

theorem pushDigits_zero (n : Nat) : pushDigits 0 n = n := by
  induction n using Nat.strong_induction_on with
  | _ n ih =>
    rw [pushDigits]
    by_cases h : n < 10
    · simp [h]
    · rw [if_neg h, ih (n / 10) (Nat.div_lt_self (by omega) (by omega))]
      omega

theorem toDigitsCore_append (fuel : Nat) :
    ∀ (n : Nat) (acc : List Char),
      Nat.toDigitsCore 10 fuel n acc = Nat.toDigitsCore 10 fuel n [] ++ acc := by
  induction fuel with
  | zero => intro n acc; simp [Nat.toDigitsCore]
  | succ fuel ih =>
    intro n acc
    simp only [Nat.toDigitsCore]
    by_cases h : n / 10 = 0
    · simp [h]
    · rw [if_neg h, if_neg h, ih (n / 10) (Nat.digitChar (n % 10) :: acc),
        ih (n / 10) [Nat.digitChar (n % 10)], List.append_assoc]
      rfl

theorem decodeFrom_toDigitsCore (fuel : Nat) :
    ∀ (n a : Nat), n < fuel →
      decodeFrom a (Nat.toDigitsCore 10 fuel n []) = pushDigits a n := by
  induction fuel with
  | zero => intro n a h; omega
  | succ fuel ih =>
    intro n a h
    simp only [Nat.toDigitsCore]
    by_cases hdiv : n / 10 = 0
    · have hn : n < 10 := by omega
      rw [if_pos hdiv, pushDigits, if_pos hn]
      simp [decodeFrom, List.foldl, Nat.mod_eq_of_lt hn, charVal_digitChar n hn]
    · have hn10 : 10 ≤ n := by
        by_contra hc
        exact hdiv (Nat.div_eq_of_lt (by omega))
      rw [if_neg hdiv, toDigitsCore_append]
      have hih := ih (n / 10) a (by omega)
      simp only [decodeFrom] at hih ⊢
      rw [List.foldl_append, hih]
      simp [List.foldl, charVal_digitChar (n % 10) (Nat.mod_lt n (by omega))]
      rw [show pushDigits a n = pushDigits a (n / 10) * 10 + n % 10 from by
        rw [pushDigits, if_neg (by omega)]]

theorem decodeFrom_repr (n : Nat) : decodeFrom 0 (Nat.repr n).data = n := by
  have h : Nat.repr n = (Nat.toDigitsCore 10 (n + 1) n []).asString := rfl
  rw [h]
  show decodeFrom 0 (Nat.toDigitsCore 10 (n + 1) n []) = n
  rw [decodeFrom_toDigitsCore (n + 1) n 0 (Nat.lt_succ_self n), pushDigits_zero]

theorem repr_injective {m n : Nat} (h : Nat.repr m = Nat.repr n) : m = n := by
  have := congrArg (fun s => decodeFrom 0 (String.data s)) h
  simpa [decodeFrom_repr] using this

theorem makeOrderId_injective {t₁ t₂ : Nat} (h : makeOrderId t₁ = makeOrderId t₂) :
    t₁ = t₂ := by
  have hdata := congrArg String.data h
  simp only [makeOrderId, String.data_append] at hdata
  have hrepr : (Nat.repr t₁).data = (Nat.repr t₂).data :=
    List.append_cancel_left hdata
  exact repr_injective (String.ext hrepr)

/-! ## Helper lemmas about the store operations -/

theorem find?_eq_none_of_filter_eq_nil {α : Type} {p : α → Bool} {l : List α}
    (h : l.filter p = []) : l.find? p = none := by
  rw [List.find?_eq_none]
  intro x hx
  rw [List.filter_eq_nil_iff] at h
  exact h x hx

theorem find?_append_of_none {α : Type} {p : α → Bool} {l₁ l₂ : List α}
    (h : l₁.find? p = none) : (l₁ ++ l₂).find? p = l₂.find? p := by
  rw [List.find?_append, h, Option.none_or]

theorem find?_some_eq {α : Type} {p : α → Bool} {l : List α} {a : α}
    (h : l.find? p = some a) : p a = true :=
  List.find?_some h

theorem find?_map_of_pres {α : Type} (q : α → Bool) (g : α → α)
    (hg : ∀ a, q (g a) = q a) (l : List α) :
    (l.map g).find? q = (l.find? q).map g := by
  induction l with
  | nil => rfl
  | cons a t ih =>
    by_cases h : q a = true
    · simp [List.find?_cons, hg, h]
    · simp only [Bool.not_eq_true] at h
      simp [List.find?_cons, hg, h, ih]

theorem findOrder_updateOrdersWhere (db : DB) (oid : String)
    (p : OrderRow → Bool) (f : OrderRow → OrderRow)
    (hf : ∀ r, (f r).id = r.id) :
    findOrder (updateOrdersWhere db p f) oid =
      (findOrder db oid).map (fun r => if p r then f r else r) := by
  unfold findOrder updateOrdersWhere
  exact find?_map_of_pres _ _
    (fun a => by by_cases h : p a = true <;> simp [h, hf]) _

theorem filter_materializeItems {oid O : String} (h : (oid == O) = true)
    (cart : List CartEntry) :
    (materializeItems oid cart).filter (fun r => r.orderId == O) =
      materializeItems oid cart := by
  induction cart with
  | nil => rfl
  | cons c t ih =>
    simp only [materializeItems, List.map_cons, List.filter_cons] at ih ⊢
    simp [h, ih]

theorem materializeItems_ne_nil {oid : String} {cart : List CartEntry}
    (h : cart ≠ []) : materializeItems oid cart ≠ [] := by
  simpa [materializeItems] using h

theorem findOrder_upsertPayment (db : DB) (row : PaymentRow) (oid : String) :
    findOrder (upsertPaymentIgnoreDup db row) oid = findOrder db oid := by
  unfold upsertPaymentIgnoreDup; split <;> rfl

theorem itemsFor_upsertPayment (db : DB) (row : PaymentRow) (oid : String) :
    itemsFor (upsertPaymentIgnoreDup db row) oid = itemsFor db oid := by
  unfold upsertPaymentIgnoreDup; split <;> rfl

theorem findPending_upsertPayment (db : DB) (row : PaymentRow) (oid : String) :
    findPending (upsertPaymentIgnoreDup db row) oid = findPending db oid := by
  unfold upsertPaymentIgnoreDup; split <;> rfl

end Gnb

namespace Gnb

/-! ## C9 — uniqueness of generated order identifiers -/

/-- C9, claim as stated, refuted: the claim says any two distinct create-order
invocations produce distinct order identifiers.  Two distinct invocations
(indices 0 and 1) observing the same `Date.now()` millisecond value
1730000000000 produce the identical identifier, because the id is derived
from the clock value alone. -/
theorem C9_counterexample :
    createOrderIdAt 0 1730000000000 = createOrderIdAt 1 1730000000000 ∧ (0 : Nat) ≠ 1 :=
  ⟨rfl, by decide⟩

/-- C9 amended: create-order invocations observing distinct `Date.now()`
values produce distinct order identifiers (`'order_' + Date.now()` is
injective in the timestamp); invocations within the same millisecond
collide. -/
theorem C9_distinct_timestamps_distinct_ids (t₁ t₂ : Nat) (h : t₁ ≠ t₂) :
    makeOrderId t₁ ≠ makeOrderId t₂ :=
  fun hc => h (makeOrderId_injective hc)

/-- Witness for C9: concrete distinct timestamps yield distinct ids. -/
theorem C9_witness : (5 : Nat) ≠ 7 ∧ makeOrderId 5 ≠ makeOrderId 7 :=
  ⟨by decide, C9_distinct_timestamps_distinct_ids 5 7 (by decide)⟩

/-! ## C6 — what the signature verifier accepts -/

/-- C6, claim as stated, refuted: the claim says the signature verifier
accepts exactly when the provided signature equals the digest over
`timestamp ++ body`.  The verifier of the first revision in `part_005`
digests the body only: it accepts the digest of `"body"` alone, which is not
the digest over any timestamp concatenated in front of the body
(here timestamp `"17"`). -/
theorem C6_counterexample :
    verifyCashfreeSignatureP5 toyDigest "body" (toyDigest "sec" "body") "sec" = true ∧
    toyDigest "sec" "body" ≠ toyDigest "sec" ("17" ++ "body") := by
  constructor
  · decide
  · decide

/-- C6 amended: the `index.js` verifier accepts exactly when secret,
signature and timestamp are non-blank and the signature equals the digest,
keyed by the secret, of the timestamp concatenated directly in front of the
raw body; the `part_005` (and hex-based `part_009`) verifiers instead digest
the body only. -/
theorem C6_index_verifier_exact (hmacB64 : String → String → String)
    (rawBody sig ts secret : String) :
    verifyCashfreeSignatureIndex hmacB64 rawBody sig ts secret = true ↔
      secret ≠ "" ∧ sig ≠ "" ∧ ts ≠ "" ∧ sig = hmacB64 secret (ts ++ rawBody) := by
  unfold verifyCashfreeSignatureIndex
  by_cases h1 : secret = ""
  · simp [h1]
  · by_cases h2 : sig = ""
    · simp [h1, h2]
    · by_cases h3 : ts = ""
      · simp [h1, h2, h3]
      · have hc : (secret == "" || sig == "" || ts == "") = false := by
          simp [h1, h2, h3]
        rw [hc]
        simp only [Bool.false_eq_true, if_false, beq_iff_eq]
        constructor
        · intro he; exact ⟨h1, h2, h3, he.symm⟩
        · intro he; exact he.2.2.2.symm

/-! ## C5 — behaviour on tampered / wrongly signed notifications -/

/-- C5, claim as stated, refuted: the claim says a wrong-signature
notification still yields an HTTP-level success acknowledgment.  The first
revision of `index.js` answers HTTP 400 (`'Invalid webhook signature'`) when
the provided signature differs from the computed digest (the state is indeed
left untouched). -/
theorem C5_counterexample :
    toyDigest "s" ("t" ++ "b") ≠ "WRONG" ∧
    webhookIndex1 toyDigest "WRONG" "t" "s" "b"
        ⟨"PAYMENT_SUCCESS_WEBHOOK", "PAID", "order_1"⟩ ⟨[], [], [], []⟩
      = (⟨[], [], [], []⟩, ⟨400, "Invalid webhook signature"⟩) := by
  constructor
  · decide
  · decide

/-- C5 amended: a notification failing verification never mutates any store;
the `part_000` (and `part_005`-rev-1 / `part_007` / `part_008`) handlers
additionally acknowledge it with HTTP 200, while the revisions behind
`index.js` rev 1 / `part_003` / `part_005` rev 2 answer HTTP 400. -/
theorem C5_failed_verification_no_mutation (hmacB64 : String → String → String)
    (ts sig raw secret : String) (ev : Part0Event) (db : DB)
    (h : verifyCashfreeWebhookPart0 hmacB64 ts sig raw secret = false) :
    webhookPart0Full hmacB64 ts sig raw secret ev db = (db, ⟨200, "ok:false"⟩) := by
  unfold webhookPart0Full
  simp [h]

/-- Witness for C5: a concrete wrong signature is rejected by `part_000`,
leaving the (empty) store unchanged and answering 200. -/
theorem C5_witness :
    verifyCashfreeWebhookPart0 toyDigest "t" "BAD" "b" "s" = false ∧
    webhookPart0Full toyDigest "t" "BAD" "b" "s" ⟨"order_1", "PAID", none⟩ ⟨[], [], [], []⟩
      = (⟨[], [], [], []⟩, ⟨200, "ok:false"⟩) :=
  ⟨by decide,
   C5_failed_verification_no_mutation toyDigest "t" "BAD" "b" "s"
     ⟨"order_1", "PAID", none⟩ ⟨[], [], [], []⟩ (by decide)⟩

/-! ## C2 — monotonicity of the status under FAILURE notifications -/

/-- C2, claim as stated, refuted: the claim says that once an order has
reached PREPARING, no later notification ever changes that state.  The
`part_000` handler's non-success branch overwrites the stored status
unconditionally: an order already in `Preparing` is reverted to `FAILED` by a
late failure notification. -/
theorem C2_counterexample :
    findOrder (webhookPart0
        ⟨[⟨"order_2", none, none, "Preparing", none, none, none, none⟩], [], [], []⟩
        ⟨"order_2", "FAILED", none⟩).1 "order_2"
      = some ⟨"order_2", none, none, "FAILED", none, none, none, none⟩ := by decide

/-- C2 amended: in the `index.js` / `part_005`-rev-1 handler a FAILURE
notification sets the order's status to `Payment Failed` exactly when
`paid_at` is unset (the revision's pending marker), and any order whose
`paid_at` is set — in particular one moved to Preparing by the success
branch, which always sets `paid_at` — is never changed by a later, duplicate,
or out-of-order notification of any status. -/
theorem C2_paidat_guarded_monotonic (fault : Bool) (now : Nat) (db : DB)
    (e : CashfreeEvent) (r : OrderRow)
    (ho : e.orderId ≠ "") (hp : e.paymentId ≠ "")
    (hr : findOrder db e.orderId = some r) :
    ((e.payStatus = "FAILED" ∨ e.payStatus = "CANCELLED") →
      findOrder (webhookRev1 fault now db e).1 e.orderId =
        some (if r.paidAt = none then { r with status := "Payment Failed" } else r)) ∧
    (r.paidAt ≠ none → findOrder (webhookRev1 fault now db e).1 e.orderId = some r) := by
  have hr' : db.orders.find? (fun s => s.id == e.orderId) = some r := hr
  have hid : (r.id == e.orderId) = true := by
    have h0 := find?_some_eq hr'
    exact h0
  have ho' : (e.orderId == "") = false := by simpa using ho
  have hp' : (e.paymentId == "") = false := by simpa using hp
  have hdb1 : ∀ db' : DB, findOrder db' e.orderId = some r →
      ∀ p f, (∀ s, (f s).id = s.id) →
      findOrder (updateOrdersWhere db' p f) e.orderId =
        some (if p r then f r else r) := by
    intro db' hdb' p f hf
    rw [findOrder_updateOrdersWhere db' e.orderId p f hf, hdb']
    rfl
  unfold webhookRev1
  rw [ho', hp']
  simp only [Bool.false_or, Bool.false_eq_true, if_false]
  constructor
  · intro hfail
    have hsucc : successTokens.contains e.payStatus = false := by
      rcases hfail with h | h <;> rw [h] <;> decide
    have hfailc : failureTokens.contains e.payStatus = true := by
      rcases hfail with h | h <;> rw [h] <;> decide
    rw [hsucc, hfailc]
    simp only [Bool.false_eq_true, if_false, if_true]
    split
    · -- ledger insert failed: orders table of db untouched by the ledger step
      rw [hdb1 db hr (fun s => s.id == e.orderId && s.paidAt == none)
          (fun s => { s with status := "Payment Failed" }) (fun s => rfl), hid]
      cases hpa : r.paidAt <;> simp
    · rw [hdb1 (upsertPaymentIgnoreDup db _)
          (by rw [findOrder_upsertPayment]; exact hr)
          (fun s => s.id == e.orderId && s.paidAt == none)
          (fun s => { s with status := "Payment Failed" }) (fun s => rfl), hid]
      cases hpa : r.paidAt <;> simp
  · intro hpaid
    have hpa : (r.paidAt == none) = false := by
      cases hpc : r.paidAt
      · exact absurd hpc hpaid
      · rfl
    have hstep : ∀ db' : DB, findOrder db' e.orderId = some r →
        ∀ f, (∀ s, (f s).id = s.id) →
        findOrder (updateOrdersWhere db'
          (fun s => s.id == e.orderId && s.paidAt == none) f) e.orderId = some r := by
      intro db' hdb' f hf
      rw [hdb1 db' hdb' _ f hf, hid, hpa]
      simp
    have hfind : findOrder (if fault = true then db
        else upsertPaymentIgnoreDup db
          { cfPaymentId := e.paymentId, orderId := e.orderId, amount := e.amount,
            status := if e.payStatus == "" then "UNKNOWN" else e.payStatus })
        e.orderId = some r := by
      split
      · exact hr
      · rw [findOrder_upsertPayment]; exact hr
    split
    · exact hstep _ hfind
        (fun s =>
          { s with
            status := "Preparing"
            paymentId := some e.paymentId
            paidAt := some now })
        (fun s => rfl)
    · split
      · exact hstep _ hfind
          (fun s => { s with status := "Payment Failed" }) (fun s => rfl)
      · exact hfind

/-- Witness for C2: a FAILURE event on a pending order (paid_at unset) marks
it `Payment Failed`. -/
theorem C2_witness :
    c2Ev.orderId ≠ "" ∧ c2Ev.paymentId ≠ "" ∧
    findOrder (webhookRev1 false 9 c2DB c2Ev).1 c2Ev.orderId
      = some (if c2Row.paidAt = none then { c2Row with status := "Payment Failed" } else c2Row) :=
  ⟨by decide, by decide,
   (C2_paidat_guarded_monotonic false 9 c2DB c2Ev c2Row
      (by decide) (by decide) rfl).1 (Or.inl rfl)⟩

/-! ## The fresh materialization path of `part_003` (shared by C3/C4) -/

/-- Stepping the `part_003` handler on a SUCCESS event when the payment is
new, the order header is absent and the snapshot is present: the ledger row,
the `Preparing` header and the materialized items are inserted and the
snapshot is deleted. -/
theorem webhookPart3_fresh (db : DB) (e : CashfreeEvent) (snap : PendingRow)
    (hs : e.payStatus = "SUCCESS")
    (hpay : findPayment db e.paymentId = none)
    (hord : findOrder db e.orderId = none)
    (hpend : findPending db e.orderId = some snap) :
    webhookPart3 db e =
      ({ orders := db.orders ++ [preparingHeader snap],
         orderItems := db.orderItems ++ materializeItems snap.id snap.cart,
         payments := db.payments ++ [⟨e.paymentId, e.orderId, e.amount, "SUCCESS"⟩],
         pendingOrders := db.pendingOrders.filter (fun s => !(s.id == snap.id)) },
       ⟨200, "OK"⟩) := by
  have hpend' : db.pendingOrders.find? (fun s => s.id == e.orderId) = some snap := hpend
  have hsnapid : snap.id = e.orderId := by
    have h0 := find?_some_eq hpend'
    exact eq_of_beq h0
  have hpay' : db.payments.find? (fun s => s.cfPaymentId == e.paymentId) = none := hpay
  have hord' : db.orders.find? (fun s => s.id == e.orderId) = none := hord
  rw [hsnapid]
  simp only [webhookPart3, hs, insertPaymentUnique, insertOrderUnique, insertItemRows,
    deletePending, findOrder, findPayment, findPending, preparingHeader, hpay', hord',
    hpend', hsnapid, Option.isSome_none, Bool.false_eq_true, if_false, bne_self_eq_false]

/-! ## C3 — PREPARING implies complete line items -/

/-- C3, claim as stated, refuted: the claim says that whenever an order's
status is PREPARING its line items exist and are complete, and only the
materialization step produces items.  The `part_000` handler, on a SUCCESS
event for an order it cannot fetch, inserts a minimal `Preparing` row and
never writes any line item: the resulting store has the order PREPARING with
zero items. -/
theorem C3_counterexample :
    findOrder (webhookPart0 ⟨[], [], [], []⟩ ⟨"order_7", "PAID", none⟩).1 "order_7"
      = some ⟨"order_7", none, none, "Preparing", none, none, none, none⟩ ∧
    itemsFor (webhookPart0 ⟨[], [], [], []⟩ ⟨"order_7", "PAID", none⟩).1 "order_7" = [] := by
  constructor
  · decide
  · decide

/-- C3 amended: on the snapshot-based reconciliation path (`part_003`), when
the webhook creates the `Preparing` header it writes, in the same delivery,
exactly the complete item set derived from the pending snapshot; the
`part_000` revision however can insert a `Preparing` row with no items, and
the `index.js` / `part_005` create-order endpoints insert line items at order
creation, outside the materialization step. -/
theorem C3_preparing_has_complete_items (db : DB) (e : CashfreeEvent) (snap : PendingRow)
    (hs : e.payStatus = "SUCCESS")
    (hpay : findPayment db e.paymentId = none)
    (hord : ordersFor db e.orderId = [])
    (hitems : itemsFor db e.orderId = [])
    (hpend : findPending db e.orderId = some snap) :
    ordersFor (webhookPart3 db e).1 e.orderId = [preparingHeader snap] ∧
    itemsFor (webhookPart3 db e).1 e.orderId = materializeItems snap.id snap.cart := by
  have hpend' : db.pendingOrders.find? (fun s => s.id == e.orderId) = some snap := hpend
  have hbeq : (snap.id == e.orderId) = true := by
    have h0 := find?_some_eq hpend'
    exact h0
  have hord0 : findOrder db e.orderId = none := find?_eq_none_of_filter_eq_nil hord
  rw [webhookPart3_fresh db e snap hs hpay hord0 hpend]
  constructor
  · show (db.orders ++ [preparingHeader snap]).filter (fun r => r.id == e.orderId)
      = [preparingHeader snap]
    rw [List.filter_append]
    have h1 : db.orders.filter (fun r => r.id == e.orderId) = [] := hord
    rw [h1]
    simp [preparingHeader, hbeq]
  · show (db.orderItems ++ materializeItems snap.id snap.cart).filter
        (fun r => r.orderId == e.orderId)
      = materializeItems snap.id snap.cart
    rw [List.filter_append]
    have h1 : db.orderItems.filter (fun r => r.orderId == e.orderId) = [] := hitems
    rw [h1, filter_materializeItems hbeq]
    rfl

/-- Witness for C3: a concrete fresh SUCCESS delivery leaves the order
PREPARING with exactly the two items derived from its snapshot. -/
theorem C3_witness :
    ordersFor (webhookPart3 ⟨[], [], [], [⟨"order_4", "u", "e", 130,
        [⟨"A", 2, 50⟩, ⟨"B", 1, 30⟩]⟩]⟩ ⟨"order_4", "pay_4", "SUCCESS", 130⟩).1 "order_4"
      = [preparingHeader ⟨"order_4", "u", "e", 130, [⟨"A", 2, 50⟩, ⟨"B", 1, 30⟩]⟩] ∧
    itemsFor (webhookPart3 ⟨[], [], [], [⟨"order_4", "u", "e", 130,
        [⟨"A", 2, 50⟩, ⟨"B", 1, 30⟩]⟩]⟩ ⟨"order_4", "pay_4", "SUCCESS", 130⟩).1 "order_4"
      = materializeItems "order_4" [⟨"A", 2, 50⟩, ⟨"B", 1, 30⟩] :=
  C3_preparing_has_complete_items
    ⟨[], [], [], [⟨"order_4", "u", "e", 130, [⟨"A", 2, 50⟩, ⟨"B", 1, 30⟩]⟩]⟩
    ⟨"order_4", "pay_4", "SUCCESS", 130⟩
    ⟨"order_4", "u", "e", 130, [⟨"A", 2, 50⟩, ⟨"B", 1, 30⟩]⟩
    rfl rfl rfl rfl rfl

/-! ## C4 — absent snapshot at materialization time -/

/-- C4, claim as stated, refuted: the claim says every SUCCESS delivery whose
snapshot is absent at materialization time gets a server-error response so
the gateway redelivers.  In revision `part_008` the snapshot is the order
row's `raw_cart_data`; when it is missing the handler answers HTTP 200 (no
redelivery) and permanently marks the order `Failed: Missing Cart Data`. -/
theorem C4_counterexample :
    (webhookPart8 ⟨[⟨"order_9", some "u", none, "Pending Payment", none, none, some 100, none⟩],
        [], [], []⟩ ⟨"order", "order_9", "PAID", none⟩).2.status = 200 ∧
    findOrder (webhookPart8 ⟨[⟨"order_9", some "u", none, "Pending Payment", none, none,
        some 100, none⟩], [], [], []⟩ ⟨"order", "order_9", "PAID", none⟩).1 "order_9"
      = some ⟨"order_9", some "u", none, "Failed: Missing Cart Data", none, none,
          some 100, none⟩ := by
  constructor
  · decide
  · decide

/-- C4 amended: in the `pending_orders`-based revisions (`part_003`, second
revision of `part_005`) a SUCCESS delivery reaching materialization with the
snapshot absent is answered with HTTP 500 (`'No pending snapshot'`) so the
gateway retries — only the ledger row has been written; the `part_008`
revision instead acknowledges with 200 and marks the order
`Failed: Missing Cart Data` permanently. -/
theorem C4_missing_snapshot_is_retryable (db : DB) (e : CashfreeEvent)
    (hs : e.payStatus = "SUCCESS")
    (hpay : findPayment db e.paymentId = none)
    (hord : findOrder db e.orderId = none)
    (hpend : findPending db e.orderId = none) :
    webhookPart3 db e =
      ({ db with payments := db.payments ++ [⟨e.paymentId, e.orderId, e.amount, "SUCCESS"⟩] },
       ⟨500, "No pending snapshot"⟩) := by
  have hpay' : db.payments.find? (fun s => s.cfPaymentId == e.paymentId) = none := hpay
  have hord' : db.orders.find? (fun s => s.id == e.orderId) = none := hord
  have hpend' : db.pendingOrders.find? (fun s => s.id == e.orderId) = none := hpend
  simp only [webhookPart3, hs, insertPaymentUnique, findOrder, findPayment, findPending,
    hpay', hord', hpend', Option.isSome_none, Bool.false_eq_true, if_false,
    bne_self_eq_false]

/-- Witness for C4: a concrete SUCCESS delivery against a store with no
snapshot gets the 500 retry response. -/
theorem C4_witness :
    webhookPart3 ⟨[], [], [], []⟩ ⟨"order_5", "pay_5", "SUCCESS", 80⟩ =
      (⟨[], [], [⟨"pay_5", "order_5", 80, "SUCCESS"⟩], []⟩, ⟨500, "No pending snapshot"⟩) :=
  C4_missing_snapshot_is_retryable ⟨[], [], [], []⟩ ⟨"order_5", "pay_5", "SUCCESS", 80⟩
    rfl rfl rfl rfl

/-! ## C7 — idempotent payment ledger -/

/-- C7 confirmed: when a ledger row keyed by the delivery's payment id
already exists, the `part_003` handler detects the duplicate and
short-circuits with a success acknowledgment, leaving the whole store — in
particular the ledger — unchanged, so no second row keyed by that payment id
is ever created and no finalization work is repeated. -/
theorem C7_duplicate_payment_short_circuit (db : DB) (e : CashfreeEvent) (pr : PaymentRow)
    (hs : e.payStatus = "SUCCESS")
    (hpay : findPayment db e.paymentId = some pr) :
    webhookPart3 db e = (db, ⟨200, "Duplicate payment ignored"⟩) := by
  have hpay' : db.payments.find? (fun s => s.cfPaymentId == e.paymentId) = some pr := hpay
  simp only [webhookPart3, hs, findPayment, hpay', bne_self_eq_false, Bool.false_eq_true,
    if_false]

/-- Witness for C7: redelivering for an already-recorded payment id leaves
the single ledger row in place and acknowledges. -/
theorem C7_witness :
    webhookPart3 ⟨[], [], [⟨"pay_6", "order_6", 60, "SUCCESS"⟩], []⟩
        ⟨"order_6", "pay_6", "SUCCESS", 60⟩ =
      (⟨[], [], [⟨"pay_6", "order_6", 60, "SUCCESS"⟩], []⟩,
       ⟨200, "Duplicate payment ignored"⟩) :=
  C7_duplicate_payment_short_circuit
    ⟨[], [], [⟨"pay_6", "order_6", 60, "SUCCESS"⟩], []⟩
    ⟨"order_6", "pay_6", "SUCCESS", 60⟩
    ⟨"pay_6", "order_6", 60, "SUCCESS"⟩ rfl rfl

/-! ## C10 — non-duplicate ledger failure is only logged -/

/-- C10 confirmed: in the `index.js` / `part_005`-rev-1 handler, when the
`order_payments` insert fails for a reason other than a duplicate key
(injected through `ledgerInsertFails = true`), the error is only logged:
the ledger stays unchanged (no row for the payment is ever recorded in this
delivery), the order is still moved to `Preparing` with `payment_id` and
`paid_at` set — it can thus be finalized with no corresponding ledger row —
and the handler acknowledges with HTTP 200. -/
theorem C10_ledger_fault_only_logged (now : Nat) (db : DB) (e : CashfreeEvent) (r : OrderRow)
    (hs : successTokens.contains e.payStatus = true)
    (ho : e.orderId ≠ "") (hp : e.paymentId ≠ "")
    (hr : findOrder db e.orderId = some r)
    (hpaid : r.paidAt = none) :
    (webhookRev1 true now db e).1.payments = db.payments ∧
    findOrder (webhookRev1 true now db e).1 e.orderId =
      some { r with status := "Preparing", paymentId := some e.paymentId, paidAt := some now } ∧
    (webhookRev1 true now db e).2 = ⟨200, "ok"⟩ := by
  have hr' : db.orders.find? (fun s => s.id == e.orderId) = some r := hr
  have hid : (r.id == e.orderId) = true := by
    have h0 := find?_some_eq hr'
    exact h0
  have ho' : (e.orderId == "") = false := by simpa using ho
  have hp' : (e.paymentId == "") = false := by simpa using hp
  have hw : webhookRev1 true now db e =
      (updateOrdersWhere db
        (fun s => s.id == e.orderId && s.paidAt == none)
        (fun s =>
          { s with
            status := "Preparing"
            paymentId := some e.paymentId
            paidAt := some now }),
       ⟨200, "ok"⟩) := by
    unfold webhookRev1
    simp only [ho', hp', hs, Bool.or_self, Bool.false_eq_true, if_false,
      eq_self_iff_true, if_true]
  rw [hw]
  refine ⟨rfl, ?_, rfl⟩
  rw [findOrder_updateOrdersWhere db e.orderId
      (fun s => s.id == e.orderId && s.paidAt == none)
      (fun s =>
        { s with
          status := "Preparing"
          paymentId := some e.paymentId
          paidAt := some now })
      (fun s => rfl), hr]
  simp [eq_of_beq hid, hpaid]

/-- Witness for C10: a concrete PAID delivery with the ledger insert failing
still moves the pending order to Preparing, records no ledger row, and
answers 200. -/
theorem C10_witness :
    (webhookRev1 true 77 ⟨[⟨"order_8", none, none, "Payment Active", none, none, none, none⟩],
        [], [], []⟩ ⟨"order_8", "pay_8", "PAID", 70⟩).1.payments = [] ∧
    findOrder (webhookRev1 true 77 ⟨[⟨"order_8", none, none, "Payment Active", none, none,
        none, none⟩], [], [], []⟩ ⟨"order_8", "pay_8", "PAID", 70⟩).1 "order_8"
      = some ⟨"order_8", none, none, "Preparing", some "pay_8", some 77, none, none⟩ ∧
    (webhookRev1 true 77 ⟨[⟨"order_8", none, none, "Payment Active", none, none, none, none⟩],
        [], [], []⟩ ⟨"order_8", "pay_8", "PAID", 70⟩).2 = ⟨200, "ok"⟩ :=
  C10_ledger_fault_only_logged 77
    ⟨[⟨"order_8", none, none, "Payment Active", none, none, none, none⟩], [], [], []⟩
    ⟨"order_8", "pay_8", "PAID", 70⟩
    ⟨"order_8", none, none, "Payment Active", none, none, none, none⟩
    rfl (by decide) (by decide) rfl rfl

/-! ## C1 — idempotent materialization (`part_005`, hardened handler) -/

/-- Stepping the hardened handler on a SUCCESS event when the payment is new,
the order header is absent and the snapshot is present yields the finalized
store and the `OK` acknowledgment. -/
theorem webhookPart5v2_fresh (db : DB) (e : CashfreeEvent) (snap : PendingRow)
    (hs : e.payStatus = "SUCCESS")
    (hpay : findPayment db e.paymentId = none)
    (hord : findOrder db e.orderId = none)
    (hpend : findPending db e.orderId = some snap) :
    webhookPart5v2 db e = (finalizedState db e snap, ⟨200, "OK"⟩) := by
  have hpend' : db.pendingOrders.find? (fun s => s.id == e.orderId) = some snap := hpend
  have hsnapid : snap.id = e.orderId := by
    have h0 := find?_some_eq hpend'
    exact eq_of_beq h0
  have hpay' : db.payments.find? (fun s => s.cfPaymentId == e.paymentId) = none := hpay
  have hord' : db.orders.find? (fun s => s.id == e.orderId) = none := hord
  simp only [finalizedState]
  rw [hsnapid]
  simp only [webhookPart5v2, hs, upsertPaymentIgnoreDup, insertOrderUnique, insertItemRows,
    deletePending, findOrder, findPayment, findPending, preparingHeader, hpay', hord',
    hpend', hsnapid, Option.isSome_none, Bool.false_eq_true, if_false, bne_self_eq_false]

/-- Stepping the hardened handler on a SUCCESS event when the payment is
already recorded, the order header exists and its items are present: the
store is left completely unchanged and the delivery is acknowledged with
`Order already exists` — in particular, the (deleted) snapshot is never
consulted. -/
theorem webhookPart5v2_already (db : DB) (e : CashfreeEvent) (r : OrderRow) (pr : PaymentRow)
    (hs : e.payStatus = "SUCCESS")
    (hpay : findPayment db e.paymentId = some pr)
    (hord : findOrder db e.orderId = some r)
    (hitems : itemsFor db e.orderId ≠ []) :
    webhookPart5v2 db e = (db, ⟨200, "Order already exists"⟩) := by
  have hpay' : db.payments.find? (fun s => s.cfPaymentId == e.paymentId) = some pr := hpay
  have hord' : db.orders.find? (fun s => s.id == e.orderId) = some r := hord
  have hlen : ((itemsFor db e.orderId).length == 0) = false := by
    cases hit : itemsFor db e.orderId
    · exact absurd hit hitems
    · rfl
  simp only [itemsFor] at hlen
  simp only [webhookPart5v2, hs, upsertPaymentIgnoreDup, findPayment, findOrder, itemsFor,
    hpay', hord', hlen, Option.isSome_some, if_true, bne_self_eq_false,
    Bool.false_eq_true, if_false]

/-- A state on which the hardened handler acts as the identity is a fixed
point of iterated delivery. -/
theorem deliverN_fixed (e : CashfreeEvent) (S : DB) (resp : Resp)
    (h : webhookPart5v2 S e = (S, resp)) : ∀ k, deliverN e k S = S := by
  intro k
  induction k with
  | zero => rfl
  | succ k ih =>
    show deliverN e k (webhookPart5v2 S e).1 = S
    rw [h]
    exact ih

/-- C1 confirmed (hardened `part_005` handler): from a store holding the
pending snapshot of an order that has no order row, no items and no recorded
payment yet, delivering the identical normalized SUCCESS payload any number
`n ≥ 1` of times leaves exactly one order row (the `Preparing` header) and
exactly the complete item set derived from the snapshot; the snapshot is gone
after materialization, and a further redelivery — arriving when the snapshot
no longer exists — does not fail: it detects that the order already has items
and short-circuits with a 200 acknowledgment, changing nothing. -/
theorem C1_idempotent_materialization (db : DB) (e : CashfreeEvent) (snap : PendingRow)
    (n : Nat)
    (hs : e.payStatus = "SUCCESS")
    (hord : ordersFor db e.orderId = [])
    (hitems : itemsFor db e.orderId = [])
    (hpay : findPayment db e.paymentId = none)
    (hpend : findPending db e.orderId = some snap)
    (hcart : snap.cart ≠ [])
    (hn : 1 ≤ n) :
    ordersFor (deliverN e n db) e.orderId = [preparingHeader snap] ∧
    itemsFor (deliverN e n db) e.orderId = materializeItems snap.id snap.cart ∧
    findPending (deliverN e n db) e.orderId = none ∧
    webhookPart5v2 (deliverN e n db) e =
      (deliverN e n db, ⟨200, "Order already exists"⟩) := by
  have hpend' : db.pendingOrders.find? (fun s => s.id == e.orderId) = some snap := hpend
  have hbeq : (snap.id == e.orderId) = true := by
    have h0 := find?_some_eq hpend'
    exact h0
  have heq : snap.id = e.orderId := eq_of_beq hbeq
  have hord0 : findOrder db e.orderId = none := find?_eq_none_of_filter_eq_nil hord
  have hpay0 : db.payments.find? (fun s => s.cfPaymentId == e.paymentId) = none := hpay
  have hfresh := webhookPart5v2_fresh db e snap hs hpay hord0 hpend
  have hOrdS1 : ordersFor (finalizedState db e snap) e.orderId = [preparingHeader snap] := by
    show (db.orders ++ [preparingHeader snap]).filter (fun r => r.id == e.orderId)
      = [preparingHeader snap]
    rw [List.filter_append]
    have h1 : db.orders.filter (fun r => r.id == e.orderId) = [] := hord
    rw [h1]
    simp [preparingHeader, hbeq]
  have hItemsS1 : itemsFor (finalizedState db e snap) e.orderId
      = materializeItems snap.id snap.cart := by
    show (db.orderItems ++ materializeItems snap.id snap.cart).filter
        (fun r => r.orderId == e.orderId)
      = materializeItems snap.id snap.cart
    rw [List.filter_append]
    have h1 : db.orderItems.filter (fun r => r.orderId == e.orderId) = [] := hitems
    rw [h1, filter_materializeItems hbeq]
    rfl
  have hPendS1 : findPending (finalizedState db e snap) e.orderId = none := by
    show (db.pendingOrders.filter (fun s => !(s.id == snap.id))).find?
        (fun s => s.id == e.orderId) = none
    rw [List.find?_eq_none]
    intro x hx
    rw [List.mem_filter] at hx
    have hxid : (x.id == snap.id) = false := by
      have h2 := hx.2
      simp only [Bool.not_eq_true'] at h2
      exact h2
    rw [← heq]
    simp [hxid]
  have hPayS1 : findPayment (finalizedState db e snap) e.paymentId =
      some (⟨e.paymentId, e.orderId, e.amount, "SUCCESS"⟩ : PaymentRow) := by
    show (db.payments ++ [(⟨e.paymentId, e.orderId, e.amount, "SUCCESS"⟩ : PaymentRow)]).find?
        (fun s => s.cfPaymentId == e.paymentId) = _
    rw [find?_append_of_none hpay0]
    simp [List.find?]
  have hOrdS1' : findOrder (finalizedState db e snap) e.orderId
      = some (preparingHeader snap) := by
    show (db.orders ++ [preparingHeader snap]).find? (fun r => r.id == e.orderId) = _
    rw [find?_append_of_none hord0]
    simp [List.find?, preparingHeader, hbeq]
  have hItemsNe : itemsFor (finalizedState db e snap) e.orderId ≠ [] := by
    rw [hItemsS1]
    exact materializeItems_ne_nil hcart
  have hAlready := webhookPart5v2_already (finalizedState db e snap) e
    (preparingHeader snap) (⟨e.paymentId, e.orderId, e.amount, "SUCCESS"⟩ : PaymentRow)
    hs hPayS1 hOrdS1' hItemsNe
  have hfix := deliverN_fixed e (finalizedState db e snap)
    ⟨200, "Order already exists"⟩ hAlready
  have hdel : deliverN e n db = finalizedState db e snap := by
    obtain ⟨m, rfl⟩ : ∃ m, n = m + 1 := ⟨n - 1, by omega⟩
    show deliverN e m (webhookPart5v2 db e).1 = _
    rw [hfresh]
    exact hfix m
  rw [hdel]
  exact ⟨hOrdS1, hItemsS1, hPendS1, hAlready⟩

/-- Witness for C1: three deliveries of the concrete SUCCESS payload leave
one Preparing row, the two derived items, no snapshot, and a short-circuiting
200 on a further redelivery. -/
theorem C1_witness :
    ordersFor (deliverN c1Ev 3 c1DB) c1Ev.orderId = [preparingHeader c1Snap] ∧
    itemsFor (deliverN c1Ev 3 c1DB) c1Ev.orderId
      = materializeItems c1Snap.id c1Snap.cart ∧
    findPending (deliverN c1Ev 3 c1DB) c1Ev.orderId = none ∧
    webhookPart5v2 (deliverN c1Ev 3 c1DB) c1Ev =
      (deliverN c1Ev 3 c1DB, ⟨200, "Order already exists"⟩) :=
  C1_idempotent_materialization c1DB c1Ev c1Snap 3
    rfl rfl rfl rfl rfl (by decide) (by decide)

end Gnb
